import Mathlib

set_option maxRecDepth 100000

/- Formal model of the jojorwu/Manus backend (src/backend/src/agent/app.py and
src/backend/src/agent/prompts.py), a FastAPI shim around a langgraph agent:
a biography-download endpoint backed by a Postgres checkpoint store, a static
frontend router, and the prompt templates consumed by the agent graph.

Python string values from the source are embedded verbatim (braces, quotes and
apostrophes written as hex escapes).  The external checkpoint store, the
environment, and the build directory are opaque parameters of the model. -/

/- ## Python str.format semantics

CPython formatting of the templates in prompts.py uses only plain named fields:
a doubled brace is an escape producing a literal brace and substitutes nothing;
a single brace opens a replacement field closed by the next closing brace.
The functions below implement exactly that fragment, fuel-structured so that
they kernel-reduce (fuel = character count is always sufficient: each step
consumes at least one character). -/

/-- Characters of `args name` substituted for each single-braced field, with
doubled braces collapsed to literal braces: the fragment of CPython
`str.format` exercised by the templates in prompts.py. -/
def pyFormatAux (args : String → String) : Nat → List Char → List Char
  | 0, _ => []
  | _ + 1, [] => []
  | f + 1, '\x7b' :: '\x7b' :: rest => '\x7b' :: pyFormatAux args f rest
  | f + 1, '\x7d' :: '\x7d' :: rest => '\x7d' :: pyFormatAux args f rest
  | f + 1, '\x7b' :: rest =>
    (args (String.mk (rest.takeWhile (fun c => c != '\x7d')))).toList ++
      pyFormatAux args f ((rest.dropWhile (fun c => c != '\x7d')).drop 1)
  | f + 1, c :: rest => c :: pyFormatAux args f rest

/-- Python `template.format(...)` on the brace-escape/named-field fragment. -/
def pyFormat (template : String) (args : String → String) : String :=
  String.mk (pyFormatAux args template.length template.toList)

/-- Names of the replacement fields that `str.format` actually substitutes in
a template, in order of occurrence; doubled braces are escapes and contribute
no field. -/
def pyFmtNamesAux : Nat → List Char → List String
  | 0, _ => []
  | _ + 1, [] => []
  | f + 1, '\x7b' :: '\x7b' :: rest => pyFmtNamesAux f rest
  | f + 1, '\x7d' :: '\x7d' :: rest => pyFmtNamesAux f rest
  | f + 1, '\x7b' :: rest =>
    String.mk (rest.takeWhile (fun c => c != '\x7d')) ::
      pyFmtNamesAux f ((rest.dropWhile (fun c => c != '\x7d')).drop 1)
  | f + 1, _ :: rest => pyFmtNamesAux f rest

/-- The parameter names a template actually exposes to `str.format`
substitution. -/
def substitutedNames (template : String) : List String :=
  pyFmtNamesAux template.length template.toList

/- ## The prompt templates of src/backend/src/agent/prompts.py, verbatim

Each definition below is the exact character content of the Python
triple-quoted string literal bound to the same name in prompts.py (including
the hard line breaks present in the stored file). -/

/-- Verbatim content of the Python string `query_writer_instructions` in prompts.py. -/
def query_writer_instructions : String :=
  "Your goal is to generate sophisticated and divers\ne web search queries. These queries are intended for an advanced automated web r\nesearch tool capable of analyzing complex results, following links, and synthesi\nzing information.\n\nInstructions:\n- Always prefer a single search query, only add another query if the original qu\nestion requests multiple aspects or elements and one query is not enough.\n- Each query should focus on one specific aspect of the original question.\n- Don\x27t produce more than \x7bnumber_queries\x7d queries.\n- Queries should be diverse, if the topic is broad, generate more than 1 query.\n- Don\x27t generate multiple similar queries, 1 is enough.\n- Query should ensure that the most current information is gathered. The current\n date is \x7bcurrent_date\x7d.\n\nFormat:\n- Format your response as a JSON object with ALL three of these exact keys:\n   - \"rationale\": Brief explanation of why these queries are relevant\n   - \"query\": A list of search queries\n\nExample:\n\nTopic: What revenue grew more last year apple stock or the number of people buyi\nng an iphone\n\x60\x60\x60json\n\x7b\x7b\x7b\x7b\n    \"rationale\": \"To answer this comparative growth question accurately, we need\n specific data points on Apple\x27s stock performance and iPhone sales metrics. The\nse queries target the precise financial information needed: company revenue tren\nds, product-specific unit sales figures, and stock price movement over the same\nfiscal period for direct comparison.\",\n    \"query\": [\"Apple total revenue growth fiscal year 2024\", \"iPhone unit sales\ngrowth fiscal year 2024\", \"Apple stock price growth fiscal year 2024\"],\n\x7d\x7d\x7d\x7d\n\x60\x60\x60\n\nContext: \x7b\x7bresearch_topic\x7d\x7d"

/-- Verbatim content of the Python string `web_searcher_instructions` in prompts.py. -/
def web_searcher_instructions : String :=
  "Conduct targeted Google Searches to gather the mo\nst recent, credible information on \"\x7b\x7bresearch_topic\x7d\x7d\" and synthesize it into a v\nerifiable text artifact.\n\nInstructions:\n- Query should ensure that the most current information is gathered. The current\n date is \x7b\x7bcurrent_date\x7d\x7d.\n- Conduct multiple, diverse searches to gather comprehensive information.\n- Consolidate key findings while meticulously tracking the source(s) for each sp\necific piece of information.\n- The output should be a well-written summary or report based on your search fin\ndings.\n- Only include the information found in the search results, don\x27t make up any in\nformation.\n\nResearch Topic:\n\x7b\x7bresearch_topic\x7d\x7d\n"

/-- Verbatim content of the Python string `reflection_instructions` in prompts.py. -/
def reflection_instructions : String :=
  "You are an expert research assistant analyzing summ\naries about \"\x7b\x7bresearch_topic\x7d\x7d\".\n\nInstructions:\n- Identify knowledge gaps or areas that need deeper exploration and generate a f\nollow-up query. (1 or multiple).\n- If provided summaries are sufficient to answer the user\x27s question, don\x27t gene\nrate a follow-up query.\n- If there is a knowledge gap, generate a follow-up query that would help expand\n your understanding.\n- Focus on technical details, implementation specifics, or emerging trends that\nweren\x27t fully covered.\n\nRequirements:\n- Ensure the follow-up query is self-contained and includes necessary context fo\nr web search.\n\nOutput Format:\n- Format your response as a JSON object with these exact keys:\n   - \"is_sufficient\": true or false\n   - \"knowledge_gap\": Describe what information is missing or needs clarificatio\nn\n   - \"follow_up_queries\": Write a specific question to address this gap\n\nExample:\n\x60\x60\x60json\n\x7b\x7b\x7b\x7b\n    \"is_sufficient\": true, // or false\n    \"knowledge_gap\": \"The summary lacks information about performance metrics an\nd benchmarks\", // \"\" if is_sufficient is true\n    \"follow_up_queries\": [\"What are typical performance benchmarks and metrics u\nsed to evaluate [specific technology]?\"] // [] if is_sufficient is true\n\x7d\x7d\x7d\x7d\n\x60\x60\x60\n\nReflect carefully on the Summaries to identify knowledge gaps and produce a foll\now-up query. Then, produce your output following this JSON format:\n\nSummaries:\n\x7b\x7bsummaries\x7d\x7d\n"

/-- Verbatim content of the Python string `answer_instructions` in prompts.py. -/
def answer_instructions : String :=
  "Generate a high-quality answer to the user\x27s question b\nased on the provided summaries.\n\nInstructions:\n- The current date is \x7b\x7bcurrent_date\x7d\x7d.\n- You are the final step of a multi-step research process, don\x27t mention that yo\nu are the final step.\n- You have access to all the information gathered from the previous steps.\n- You have access to the user\x27s question.\n- Generate a high-quality answer to the user\x27s question based on the provided su\nmmaries and the user\x27s question.\n- you MUST include all the citations from the summaries in the answer correctly.\n\nUser Context:\n- \x7b\x7bresearch_topic\x7d\x7d\n\nSummaries:\n\x7b\x7bsummaries\x7d\x7d"

/-- Verbatim content of the Python string `biography_instructions` in prompts.py. -/
def biography_instructions : String :=
  "\nGenerate a comprehensive and well-structured biography about \x7bresearch_topic\x7d, drawing from the provided summaries. The biography should be suitable for a standalone document.\n\nInstructions:\n- The current date is \x7bcurrent_date\x7d.\n- Base the biography *only* on the information contained within the provided summaries. Do not add external knowledge.\n- Structure the biography with clear sections. Consider using headings such as:\n    - Early Life and Background\n    - Education and Influences\n    - Key Accomplishments and Contributions\n    - Challenges and Obstacles Overcome (if applicable from summaries)\n    - Impact and Legacy\n    - References (ensure all citations from the summaries are correctly placed here or inline as appropriate)\n- Write in a narrative and engaging style.\n- Ensure meticulous inclusion of all citations from the summaries.\n\nUser Context (Research Topic):\n- \x7bresearch_topic\x7d\n\nSummaries:\n\x7bsummaries\x7d\n"

/- scratch checks -/
example : substitutedNames query_writer_instructions = ["number_queries", "current_date"] := by rfl
example : substitutedNames web_searcher_instructions = [] := by rfl
example : substitutedNames reflection_instructions = [] := by rfl
example : substitutedNames answer_instructions = [] := by rfl
example : substitutedNames biography_instructions =
    ["research_topic", "current_date", "research_topic", "summaries"] := by rfl
/- ## The biography-download endpoint of src/backend/src/agent/app.py

`download_biography` runs entirely inside one `try` block: it reads five
environment variables with defaults, builds a connection string, opens the
checkpoint store, issues a single `aget_state` query for the requested
`thread_id`, and branches on the result; any exception anywhere in the block
is caught and mapped to a fixed 500 response.  The store interaction
(connect + compile + aget_state) is modelled as one opaque function from the
connection string and thread id to its outcome: a snapshot, no snapshot, or a
raised exception. -/

/-- A langgraph `StateSnapshot` as seen by the handler: its `.values` mapping
from field name to (string) value. -/
structure StateSnapshot where
  values : List (String × String)
deriving DecidableEq, Repr

/-- Python `state_snapshot.values.get(key)`. -/
def StateSnapshot.get (s : StateSnapshot) (key : String) : Option String :=
  (s.values.find? (fun kv => kv.1 == key)).map (fun kv => kv.2)

/-- Outcome of the store interaction performed inside the `try` block:
a snapshot (or none), or an exception carrying its message. -/
inductive StoreOutcome where
  | ok (snapshot : Option StateSnapshot)
  | exn (message : String)
deriving DecidableEq, Repr

/-- The parts of a FastAPI/Starlette response the handler sets. -/
structure HTTPResponse where
  status : Nat
  body : String
  mediaType : Option String := none
  contentDisposition : Option String := none
deriving DecidableEq, Repr

/-- Python `os.getenv(name, default)` over an opaque environment. -/
def os_getenv (env : String → Option String) (name dflt : String) : String :=
  match env name with
  | some v => v
  | none => dflt

/-- The f-string
`f"postgresql+psycopg://{db_user}:{db_pass}@{db_host}:{db_port}/{db_name}"`
of app.py line 72, with each component read as in lines 66-70. -/
def conn_string (env : String → Option String) : String :=
  "postgresql+psycopg://" ++ os_getenv env "POSTGRES_USER" "postgres" ++ ":" ++
    os_getenv env "POSTGRES_PASSWORD" "postgres" ++ "@" ++
    os_getenv env "POSTGRES_HOST" "localhost" ++ ":" ++
    os_getenv env "POSTGRES_PORT" "5432" ++ "/" ++
    os_getenv env "POSTGRES_DB" "postgres"

/-- app.py line 96. -/
def biography_not_found_response : HTTPResponse :=
  { status := 404, body := "Biography not found or not yet generated for this thread." }

/-- app.py line 100 (the `except` branch). -/
def biography_error_response : HTTPResponse :=
  { status := 500, body := "Error retrieving biography." }

/-- The `GET /download_biography/{thread_id}` handler, app.py lines 63-100.
`store` is the opaque checkpoint store: applied to the connection string and
the thread id it yields the outcome of the single `aget_state` query (or the
exception raised anywhere in the `try` block).  Python truthiness of
`state_snapshot` (None is falsy) and of `biography_text` (None and `""` are
falsy) is spelled out in the branches. -/
def download_biography (env : String → Option String)
    (store : String → String → StoreOutcome) (thread_id : String) : HTTPResponse :=
  match store (conn_string env) thread_id with
  | .exn _ => biography_error_response
  | .ok none => biography_not_found_response
  | .ok (some state_snapshot) =>
    match state_snapshot.get "biography_content" with
    | none => biography_not_found_response
    | some biography_text =>
      if biography_text = "" then biography_not_found_response
      else
        { status := 200
          body := biography_text
          mediaType := some "text/markdown"
          contentDisposition := some ("attachment; filename=biography_" ++ thread_id ++ ".md") }

/-- Instrumented view of `download_biography` exposing the store queries the
handler issues as a list of (connection string, thread id) pairs: the handler
body contains exactly one `aget_state` call site (app.py line 81), executed
unconditionally once inside the `try` block, with no loop and no retry around
it. -/
def download_biography_logged (env : String → Option String)
    (store : String → String → StoreOutcome) (thread_id : String) :
    HTTPResponse × List (String × String) :=
  (download_biography env store thread_id, [(conn_string env, thread_id)])

/- State-passing view of the checkpoint store, for the frame property: the
store is a mutable mapping from thread id to latest snapshot, with the read
operation the handler uses and the write operation of the same checkpointer
API (which the handler never invokes). -/

/-- The checkpoint store contents: latest snapshot per thread id. -/
def StoreState := List (String × StateSnapshot)

/-- langgraph `aget_state`: read the latest snapshot for a thread; the store
contents are returned unchanged. -/
def aget_state (s : StoreState) (thread_id : String) :
    Option StateSnapshot × StoreState :=
  ((s.find? (fun kv => kv.1 == thread_id)).map (fun kv => kv.2), s)

/-- The checkpointer API's write operation (`aput`); defined to make the frame
statement meaningful — `download_biography` never calls it. -/
def aput_state (s : StoreState) (thread_id : String) (snap : StateSnapshot) :
    StoreState :=
  (thread_id, snap) :: s

/-- `download_biography` on the success path, with the store threaded as
explicit state: the only store operation performed is the single `aget_state`
of app.py line 81. -/
def download_biography_st (s : StoreState) (thread_id : String) :
    HTTPResponse × StoreState :=
  let r := aget_state s thread_id
  (match r.1 with
   | none => biography_not_found_response
   | some state_snapshot =>
     match state_snapshot.get "biography_content" with
     | none => biography_not_found_response
     | some biography_text =>
       if biography_text = "" then biography_not_found_response
       else
         { status := 200
           body := biography_text
           mediaType := some "text/markdown"
           contentDisposition := some ("attachment; filename=biography_" ++ thread_id ++ ".md") },
   r.2)

/-- The state-passing view computes the same response as `download_biography`
run against the store read it performs. -/
theorem download_biography_st_fst (s : StoreState) (thread_id : String)
    (env : String → Option String) :
    (download_biography_st s thread_id).1 =
      download_biography env (fun _ tid => .ok (aget_state s tid).1) thread_id := by
  cases hsnap : (aget_state s thread_id).1 with
  | none => simp [download_biography_st, download_biography, hsnap]
  | some snap => simp [download_biography_st, download_biography, hsnap]
/- ## The static frontend router of src/backend/src/agent/app.py

`create_frontend_router` checks the build directory at startup: if it is
missing or lacks `index.html` it returns a lone Starlette `Route` whose
handler always answers 503; otherwise it returns a FastAPI sub-application
with a `/assets` static mount and a catch-all route to `handle_catch_all`.
Both route registrations use the literal pattern string `"/{{path:path}}"`
(app.py lines 43 and 53).

Starlette compiles a route path by scanning it with
`PARAM_REGEX = {([a-zA-Z_][a-zA-Z0-9_]*)(:[a-zA-Z_][a-zA-Z0-9_]*)?}` and
splicing a capture group (`.*` for the `path` convertor, `[^/]+` for the
default `str` convertor) at each match, regex-escaping everything between
matches; there is no doubled-brace escape.  `compilePath` below reproduces
that scan, and `segsCaptureAux` matches a request path against the compiled
segments with the greedy/backtracking semantics of the resulting anchored
regex, returning the characters consumed by the capture group. -/

/-- One token of a compiled Starlette route pattern: a literal character, one
required character of a capture group, or zero-or-more characters of a capture
group; `allowSlash` is false for the `[^/]` character class. -/
inductive PathSeg where
  | lit (c : Char)
  | one (allowSlash : Bool)
  | star (allowSlash : Bool)
deriving DecidableEq, Repr

/-- First character of an identifier in `PARAM_REGEX`: `[a-zA-Z_]`. -/
def isIdentStart (c : Char) : Bool :=
  ('a' ≤ c && c ≤ 'z') || ('A' ≤ c && c ≤ 'Z') || c == '_'

/-- Later character of an identifier in `PARAM_REGEX`: `[a-zA-Z0-9_]`. -/
def isIdentRest (c : Char) : Bool :=
  isIdentStart c || ('0' ≤ c && c ≤ '9')

/-- Longest identifier prefix of `cs` and the remainder, if one exists. -/
def identSpan (cs : List Char) : Option (String × List Char) :=
  match cs with
  | [] => none
  | c :: rest =>
    if isIdentStart c then
      some (String.mk (c :: rest.takeWhile isIdentRest), rest.dropWhile isIdentRest)
    else none

/-- Try to read one `PARAM_REGEX` match `\x7bname\x7d` or `\x7bname:conv\x7d`
at the head of `cs`; on success return the parameter name, the convertor
(`"str"` when absent, as in Starlette's `match.groups("str")`) and the rest. -/
def tryParam (cs : List Char) : Option (String × String × List Char) :=
  match cs with
  | '\x7b' :: rest =>
    (match identSpan rest with
     | none => none
     | some (pname, rest1) =>
       match rest1 with
       | '\x7d' :: r => some (pname, "str", r)
       | ':' :: rest2 =>
         (match identSpan rest2 with
          | none => none
          | some (conv, rest3) =>
            match rest3 with
            | '\x7d' :: r => some (pname, conv, r)
            | _ => none)
       | _ => none)
  | _ => none

/-- Segments a convertor's regex contributes: `path` is `.*`; the default
`str` is `[^/]+` (one required non-slash character then zero or more).  The
repository's only route patterns use the `path` convertor. -/
def convSegs (conv : String) : List PathSeg :=
  if conv == "path" then [.star true] else [.one false, .star false]

/-- Starlette `compile_path` scan: at each position try `PARAM_REGEX`; on a
match splice the convertor's segments and continue after it, otherwise the
character is literal (fuel = character count suffices: every step consumes at
least one character). -/
def compilePathAux : Nat → List Char → List PathSeg
  | 0, _ => []
  | _ + 1, [] => []
  | f + 1, c :: rest =>
    match tryParam (c :: rest) with
    | some (_, conv, r) => convSegs conv ++ compilePathAux f r
    | none => .lit c :: compilePathAux f rest

/-- Compiled segment list of a Starlette route pattern string. -/
def compilePath (p : String) : List PathSeg :=
  compilePathAux p.length p.toList

/-- Match compiled segments against the remaining request-path characters,
accumulating (reversed) the characters consumed by capture-group segments;
`star` consumes greedily and backtracks, as Python's greedy `.*` does.  Fuel
bounds the recursion depth; every call either consumes a segment or a
character, so `segs.length + cs.length + 1` is always sufficient. -/
def segsCaptureAux : Nat → List PathSeg → List Char → List Char → Option (List Char)
  | 0, _, _, _ => none
  | _ + 1, [], [], acc => some acc.reverse
  | _ + 1, [], _ :: _, _ => none
  | _ + 1, .lit _ :: _, [], _ => none
  | f + 1, .lit c :: segs, d :: cs, acc =>
    if c == d then segsCaptureAux f segs cs acc else none
  | _ + 1, .one _ :: _, [], _ => none
  | f + 1, .one slash :: segs, d :: cs, acc =>
    if slash || d != '/' then segsCaptureAux f segs cs (d :: acc) else none
  | f + 1, .star slash :: segs, cs, acc =>
    match (match cs with
           | [] => none
           | d :: cs2 =>
             if slash || d != '/' then
               segsCaptureAux f (.star slash :: segs) cs2 (d :: acc)
             else none) with
    | some r => some r
    | none => segsCaptureAux f segs cs acc

/-- Match a request path against a route pattern string; `some captured` on a
match, where `captured` is the text of the capture group(s). -/
def routeCapture (p path : String) : Option String :=
  let segs := compilePath p
  (segsCaptureAux (segs.length + path.length + 1) segs path.toList []).map String.mk

/-- The literal route pattern string at app.py lines 43 and 53:
`"/{{path:path}}"`. -/
def frontend_route_pattern : String := "/\x7b\x7bpath:path\x7d\x7d"

/- scratch checks on the compiled pattern -/
example : compilePath frontend_route_pattern =
    [.lit '/', .lit '\x7b', .star true, .lit '\x7d'] := by rfl
example : routeCapture frontend_route_pattern "/nonexistent/path" = none := by rfl
example : routeCapture frontend_route_pattern "/\x7babc\x7d" = some "abc" := by rfl
example : routeCapture "/\x7bpath:path\x7d" "/nonexistent/path" =
    some "nonexistent/path" := by rfl
/-- The frontend build directory: the set of existing regular files, keyed by
path relative to `build_path`, with their contents.  `none` at the router
models a missing/non-directory `build_path`. -/
structure BuildDir where
  files : List (String × String)
deriving DecidableEq, Repr

/-- Existence + content lookup of a regular file under `build_path`. -/
def BuildDir.fileContent (b : BuildDir) (p : String) : Option String :=
  (b.files.find? (fun kv => kv.1 == p)).map (fun kv => kv.2)

/-- The router `create_frontend_router` returns: the lone 503 `Route` when the
build is absent/incomplete, or the FastAPI sub-application over the build
directory. -/
inductive FrontendRouter where
  | dummy
  | react (b : BuildDir)
deriving DecidableEq, Repr

/-- app.py lines 28-43: the startup check
`not build_path.is_dir() or not (build_path / "index.html").is_file()`. -/
def create_frontend_router (build : Option BuildDir) : FrontendRouter :=
  match build with
  | none => .dummy
  | some b =>
    if (b.fileContent "index.html").isSome then .react b else .dummy

/-- app.py lines 36-41: the `dummy_frontend` response (string literal rejoined
across the hard line break the stored file contains inside it). -/
def dummy_frontend_response : HTTPResponse :=
  { status := 503
    body := "Frontend not built. Run \x27npm run build\x27 in the frontend directory."
    mediaType := some "text/plain" }

/-- Starlette `BaseRoute.__call__` on a non-matching scope: a plain-text 404
(`PlainTextResponse("Not Found")`). -/
def starlette_not_found_response : HTTPResponse :=
  { status := 404, body := "Not Found", mediaType := some "text/plain" }

/-- FastAPI sub-application default for a request matching no route: HTTP 404
with JSON detail. -/
def fastapi_not_found_response : HTTPResponse :=
  { status := 404
    body := "\x7b\"detail\":\"Not Found\"\x7d"
    mediaType := some "application/json" }

/-- app.py lines 53-58: `handle_catch_all` — serve `build_path / path` if it
exists as a regular file, else fall back to `build_path / "index.html"`
(`FileResponse` of a missing index would error; modelled as a plain 500). -/
def handle_catch_all (b : BuildDir) (path : String) : HTTPResponse :=
  match b.fileContent path with
  | some content => { status := 200, body := content }
  | none =>
    match b.fileContent "index.html" with
    | some content => { status := 200, body := content }
    | none => { status := 500, body := "Internal Server Error", mediaType := some "text/plain" }

/-- Starlette `Mount("/assets", ...)` prefix test, at the character level (the
standard-library `String.startsWith` does not kernel-reduce). -/
def strHasPrefix (p s : String) : Bool :=
  p.toList.isPrefixOf s.toList

/-- Drop the first `n` characters of a string, at the character level. -/
def strDropChars (s : String) (n : Nat) : String :=
  String.mk (s.toList.drop n)

/-- Dispatch of a request path (relative to the `/app` mount) through the
router `create_frontend_router` built.  In the react case the `/assets` static
mount (registered first) handles its prefix; then the single registered route
with pattern `frontend_route_pattern` is matched; an unmatched request falls
to the framework's 404. -/
def frontend_dispatch (r : FrontendRouter) (reqPath : String) : HTTPResponse :=
  match r with
  | .dummy =>
    (match routeCapture frontend_route_pattern reqPath with
     | some _ => dummy_frontend_response
     | none => starlette_not_found_response)
  | .react b =>
    if strHasPrefix "/assets/" reqPath then
      match b.fileContent ("assets/" ++ (strDropChars reqPath 8)) with
      | some content => { status := 200, body := content }
      | none => starlette_not_found_response
    else
      match routeCapture frontend_route_pattern reqPath with
      | some captured => handle_catch_all b captured
      | none => fastapi_not_found_response

/- scratch checks -/
example :
    frontend_dispatch (create_frontend_router (some { files := [("index.html", "INDEX")] }))
      "/nonexistent/path" = fastapi_not_found_response := by decide
example :
    frontend_dispatch (create_frontend_router none) "/index.html" =
      starlette_not_found_response := by decide
example :
    frontend_dispatch (create_frontend_router (some { files := [("index.html", "INDEX")] }))
      "/\x7babc\x7d" = { status := 200, body := "INDEX" } := by decide
/- ## Claims -/

/-- C1: for every environment, store behaviour and thread id, if the single
store query yields a snapshot whose values map `biography_content` to a
non-empty text, `download_biography` returns HTTP 200 with media type
`text/markdown`, body exactly the stored text, and a Content-Disposition
header naming the file exactly `biography_{thread_id}.md`. -/
theorem C1_download_biography_success (env : String → Option String)
    (store : String → String → StoreOutcome) (thread_id : String)
    (snap : StateSnapshot) (bio : String)
    (hstore : store (conn_string env) thread_id = .ok (some snap))
    (hget : snap.get "biography_content" = some bio)
    (hne : bio ≠ "") :
    download_biography env store thread_id =
      { status := 200
        body := bio
        mediaType := some "text/markdown"
        contentDisposition := some ("attachment; filename=biography_" ++ thread_id ++ ".md") } := by
  simp [download_biography, hstore, hget, hne]

/-- Concrete instance of C1: a stored snapshot with `biography_content`
set to `"# Bio"` for thread `t1`. -/
theorem C1_witness :
    download_biography (fun _ => none)
      (fun _ _ => .ok (some { values := [("biography_content", "# Bio")] })) "t1" =
      { status := 200
        body := "# Bio"
        mediaType := some "text/markdown"
        contentDisposition := some ("attachment; filename=biography_" ++ "t1" ++ ".md") } :=
  C1_download_biography_success _ _ _ _ _ rfl rfl (by decide)

/-- C2: whenever the store query raises no exception but yields no snapshot,
or a snapshot whose values lack `biography_content` or map it to the empty
string, `download_biography` returns HTTP 404 with body exactly
`"Biography not found or not yet generated for this thread."`; no default
content is substituted. -/
theorem C2_download_biography_not_found (env : String → Option String)
    (store : String → String → StoreOutcome) (thread_id : String)
    (result : Option StateSnapshot)
    (hstore : store (conn_string env) thread_id = .ok result)
    (hempty : ∀ snap, result = some snap →
      snap.get "biography_content" = none ∨ snap.get "biography_content" = some "") :
    download_biography env store thread_id =
      { status := 404
        body := "Biography not found or not yet generated for this thread." } := by
  cases result with
  | none => simp [download_biography, hstore, biography_not_found_response]
  | some snap =>
    rcases hempty snap rfl with h | h <;>
      simp [download_biography, hstore, h, biography_not_found_response]

/-- Concrete instance of C2: a store with no snapshot for thread `t2`. -/
theorem C2_witness :
    download_biography (fun _ => none) (fun _ _ => .ok none) "t2" =
      { status := 404
        body := "Biography not found or not yet generated for this thread." } :=
  C2_download_biography_not_found _ _ _ none rfl (fun _ h => nomatch h)

/-- C3: whenever the store interaction raises an exception,
`download_biography` returns HTTP 500 with body exactly
`"Error retrieving biography."`, and the response is the same for any two
requests failing with any two exceptions — no text of the exception reaches
the response. -/
theorem C3_download_biography_error (env env2 : String → Option String)
    (store store2 : String → String → StoreOutcome) (thread_id thread_id2 : String)
    (e e2 : String)
    (h : store (conn_string env) thread_id = .exn e)
    (h2 : store2 (conn_string env2) thread_id2 = .exn e2) :
    download_biography env store thread_id =
      { status := 500, body := "Error retrieving biography." } ∧
    download_biography env store thread_id = download_biography env2 store2 thread_id2 := by
  constructor
  · simp [download_biography, h, biography_error_response]
  · simp [download_biography, h, h2]

/-- Concrete instance of C3: two stores failing with two different exception
messages produce the same fixed 500 response. -/
theorem C3_witness :
    download_biography (fun _ => none) (fun _ _ => .exn "connection refused") "t3" =
      { status := 500, body := "Error retrieving biography." } ∧
    download_biography (fun _ => none) (fun _ _ => .exn "connection refused") "t3" =
      download_biography (fun _ => none) (fun _ _ => .exn "timeout during query") "t3" :=
  C3_download_biography_error _ _ _ _ _ _ _ _ rfl rfl

/-- C4: the claim fails on the code as stored.  With the build present
(`index.html` exists, no file at `nonexistent/path`), the request path
`/nonexistent/path` does not match the catch-all route: its literal pattern
`"/{{path:path}}"` compiles under Starlette's `PARAM_REGEX` scan to literal
`/{`, a capture group, and literal `}`, so the framework's 404 is returned
instead of the fallback index with 200.  The third conjunct shows the
intended single-braced pattern would have matched. -/
theorem C4_catch_all_route_bug :
    frontend_dispatch
        (create_frontend_router (some { files := [("index.html", "INDEX")] }))
        "/nonexistent/path" = fastapi_not_found_response ∧
    fastapi_not_found_response.status = 404 ∧
    routeCapture "/\x7bpath:path\x7d" "/nonexistent/path" = some "nonexistent/path" := by
  refine ⟨by decide, rfl, by decide⟩

/-- C5: the claim fails on the code as stored.  With the build missing, the
dummy route carries the same literal pattern `"/{{path:path}}"`, so an
ordinary path such as `/index.html` matches no route and gets the Starlette
404, not the fixed 503; the 503 is reachable only for paths of the shape
`/{...}` (third conjunct). -/
theorem C5_dummy_route_bug :
    frontend_dispatch (create_frontend_router none) "/index.html" =
      starlette_not_found_response ∧
    starlette_not_found_response.status = 404 ∧
    frontend_dispatch (create_frontend_router none) "/\x7bx\x7d" =
      dummy_frontend_response := by
  refine ⟨by decide, rfl, by decide⟩

/-- C6: the claim fails on the code as stored.  Under CPython `str.format`
semantics the substitutable field names of each template are:
`query_writer_instructions` substitutes only `number_queries` and
`current_date` (its `research_topic` occurrence is double-brace escaped);
`web_searcher_instructions`, `reflection_instructions` and
`answer_instructions` substitute nothing (every field occurrence is
double-brace escaped); only `biography_instructions` substitutes its full
documented set `research_topic`, `current_date`, `summaries`. -/
theorem C6_template_placeholders :
    substitutedNames query_writer_instructions = ["number_queries", "current_date"] ∧
    substitutedNames web_searcher_instructions = [] ∧
    substitutedNames reflection_instructions = [] ∧
    substitutedNames answer_instructions = [] ∧
    substitutedNames biography_instructions =
      ["research_topic", "current_date", "research_topic", "summaries"] :=
  ⟨rfl, rfl, rfl, rfl, rfl⟩

/-- C7: for every environment, the connection string has the form
`postgresql+<driver>://user:pass@host:port/db` with driver `psycopg`, where
each component is the environment variable's value when set and the
documented default otherwise. -/
theorem C7_conn_string_form (env : String → Option String)
    (host port user pw db : String)
    (hhost : env "POSTGRES_HOST" = some host ∨ env "POSTGRES_HOST" = none ∧ host = "localhost")
    (hport : env "POSTGRES_PORT" = some port ∨ env "POSTGRES_PORT" = none ∧ port = "5432")
    (huser : env "POSTGRES_USER" = some user ∨ env "POSTGRES_USER" = none ∧ user = "postgres")
    (hpw : env "POSTGRES_PASSWORD" = some pw ∨ env "POSTGRES_PASSWORD" = none ∧ pw = "postgres")
    (hdb : env "POSTGRES_DB" = some db ∨ env "POSTGRES_DB" = none ∧ db = "postgres") :
    conn_string env =
      "postgresql+" ++ "psycopg" ++ "://" ++ user ++ ":" ++ pw ++ "@" ++
        host ++ ":" ++ port ++ "/" ++ db := by
  rcases hhost with h1 | ⟨h1, rfl⟩ <;> rcases hport with h2 | ⟨h2, rfl⟩ <;>
    rcases huser with h3 | ⟨h3, rfl⟩ <;> rcases hpw with h4 | ⟨h4, rfl⟩ <;>
    rcases hdb with h5 | ⟨h5, rfl⟩ <;>
    simp [conn_string, os_getenv, h1, h2, h3, h4, h5]

/-- Concrete instance of C7: with no environment variables set, every
component takes its documented default. -/
theorem C7_witness :
    conn_string (fun _ => none) =
      "postgresql+" ++ "psycopg" ++ "://" ++ "postgres" ++ ":" ++ "postgres" ++ "@" ++
        "localhost" ++ ":" ++ "5432" ++ "/" ++ "postgres" :=
  C7_conn_string_form _ _ _ _ _ _ (Or.inr ⟨rfl, rfl⟩) (Or.inr ⟨rfl, rfl⟩)
    (Or.inr ⟨rfl, rfl⟩) (Or.inr ⟨rfl, rfl⟩) (Or.inr ⟨rfl, rfl⟩)

/-- C8: for every request, the handler issues at most one state-retrieval
query to the checkpoint store — no retry after a failure or an empty result,
no second fetch in the same request. -/
theorem C8_single_store_query (env : String → Option String)
    (store : String → String → StoreOutcome) (thread_id : String) :
    (download_biography_logged env store thread_id).2.length ≤ 1 := by
  simp [download_biography_logged]

/-- C9: the handler leaves the checkpoint store unchanged: threading the
store contents through the handler, the state after the request equals the
state before it — only the read `aget_state` is ever performed. -/
theorem C9_store_unchanged (s : StoreState) (thread_id : String) :
    (download_biography_st s thread_id).2 = s := rfl

/-- C10: for every environment, store behaviour (snapshot, no snapshot, or
exception) and thread id, the handler is total and its status is one of
200, 404, 500; exceptions never propagate (the `except` branch yields the
500 response). -/
theorem C10_total_status (env : String → Option String)
    (store : String → String → StoreOutcome) (thread_id : String) :
    (download_biography env store thread_id).status = 200 ∨
    (download_biography env store thread_id).status = 404 ∨
    (download_biography env store thread_id).status = 500 := by
  cases h : store (conn_string env) thread_id with
  | exn e => simp [download_biography, h, biography_error_response]
  | ok osnap =>
    cases osnap with
    | none => simp [download_biography, h, biography_not_found_response]
    | some snap =>
      cases hget : snap.get "biography_content" with
      | none => simp [download_biography, h, hget, biography_not_found_response]
      | some bio =>
        by_cases hb : bio = "" <;>
          simp [download_biography, h, hget, hb, biography_not_found_response]
